import Mathlib

/-!
Shallow embedding of `src/mike_bin.py` (the au repository's docs-build
indirection layer).  The file defines Lean counterparts of the two override
hooks, `override_version` and `override_build`, and of the `__main__`
bootstrap, and proves the frozen claims about them.

Modelling conventions:
* A process environment is a partial map from variable names to values,
  `Env := String → Option String`.  Python's `os.environ.copy()` followed by
  a single assignment is `envSet`.
* A child process is a black box described by its observable behaviour: an
  exit code and captured standard output (`ChildResult`).  `subprocess.run`
  with `check=True` raises `CalledProcessError` on a non-zero exit code;
  failures are values of `PyError` and fallible operations return `Except`.
* The regular-expression search `re.search("^\\S+, version (\\S*)", output)`
  is embedded by a deterministic matcher that follows Python's backtracking
  semantics for this specific pattern: since the pattern is anchored with
  `^` and `re.MULTILINE` is off, a match can only start at position 0; the
  greedy `\S+` tries the longest run of non-whitespace characters first and
  backtracks one character at a time until the literal `, version ` follows;
  the greedy capture `\S*` then takes the longest run of non-whitespace
  characters, possibly empty.  A failed search makes `m` equal to `None`,
  and `m.group(1)` then raises `AttributeError` (an unchecked dereference),
  embedded as `PyError.attributeError`.
-/

/-- Python's `\s` class restricted to the ASCII whitespace characters
(space, tab, newline, carriage return, form feed, vertical tab). -/
def isWS (c : Char) : Bool :=
  c = ' ' || c = '\t' || c = '\n' || c = '\r' || c = '\x0c' || c = '\x0b'

/-- Python's `\S`: a character that is not whitespace. -/
def nonWS (c : Char) : Bool := !isWS c

/-- Python's `str.rstrip()`: remove trailing whitespace characters. -/
def rstrip (cs : List Char) : List Char :=
  (cs.reverse.dropWhile isWS).reverse

/-- The literal fragment `, version ` of the search pattern in
`override_version` (src/mike_bin.py line 47). -/
def versionLiteral : List Char := ", version ".data

/-- Backtracking of the greedy `\S+` in `^\S+, version (\S*)`: try the
split points `k, k-1, ..., 1` (the length of the text matched by `\S+`),
longest first, and at the first one where the literal `, version ` follows,
return the capture of the greedy `\S*`. -/
def matchFrom : Nat → List Char → Option (List Char)
  | 0, _ => none
  | k + 1, cs =>
    if versionLiteral.isPrefixOf (cs.drop (k + 1)) then
      some (((cs.drop (k + 1)).drop versionLiteral.length).takeWhile nonWS)
    else
      matchFrom k cs

/-- Embedding of `re.search("^\\S+, version (\\S*)", output)` returning the
first capture group: `^` restricts the match to position 0, so `\S+` matches
a non-empty prefix of the maximal non-whitespace run at the start. -/
def firstLineMatch (cs : List Char) : Option (List Char) :=
  matchFrom (cs.takeWhile nonWS).length cs

/-- Observable behaviour of a spawned child process: its exit code and its
captured standard output. -/
structure ChildResult where
  exitCode : Nat
  stdout : String
deriving DecidableEq, Repr

/-- The Python exceptions this layer can raise.  `calledProcessError` is
raised by `subprocess.run(..., check=True)` on a non-zero exit code;
`attributeError` is the unchecked `m.group(1)` dereference when the pattern
match failed.  `unparsableVersionOutput` is the explicit, named error the
spec's error-handling section asks a reimplementation to raise instead of
the dereference; the source never raises it. -/
inductive PyError where
  | calledProcessError (code : Nat)
  | attributeError
  | unparsableVersionOutput
deriving DecidableEq, Repr

/-- Whether an `Except` result is a normal return. -/
def isOk {ε α : Type} : Except ε α → Bool
  | .ok _ => true
  | .error _ => false

/-- Embedding of `override_version` (src/mike_bin.py lines 31-48), as a
function of the child process's observable behaviour: run
`["update_docs", "--version"]` with `check=True` (non-zero exit raises
`CalledProcessError`), rstrip the captured stdout, search for
`^\S+, version (\S*)`, and return group 1 (raising `AttributeError` when
the search failed). -/
def override_version (child : ChildResult) : Except PyError String :=
  if child.exitCode ≠ 0 then
    .error (.calledProcessError child.exitCode)
  else
    match firstLineMatch (rstrip child.stdout.data) with
    | none => .error .attributeError
    | some g => .ok (String.mk g)

/-- A process environment: a partial map from variable names to values. -/
def Env : Type := String → Option String

/-- Environment update, `env[k] = v` on a Python dict. -/
def envSet (e : Env) (k v : String) : Env :=
  fun x => if x = k then some v else e x

/-- Modelled from the spec: the well-known version-carrying variable name
shared with the external build tool.  The source imports it as
`docs_version_var` from `mike.mkdocs_utils`, a module outside this
repository; the spec fixes only that it is one fixed name. -/
def docs_version_var : String := "MIKE_DOCS_VERSION"

/-- Everything observable about one `override_build` call: the argument
vector handed to `subprocess.run`, the environment handed to the child, the
call's own outcome, and the parent process's environment after the call. -/
structure BuildCall where
  command : List String
  childEnv : Env
  result : Except PyError Unit
  parentEnvAfter : Env

/-- Python truthiness of the `config_file` argument (`None` and the empty
string are falsy). -/
def truthy : Option String → Bool
  | none => false
  | some s => !(s == "")

/-- Embedding of `override_build` (src/mike_bin.py lines 51-69): build the
argument vector `["update_docs"] ++ (["--quiet"] if quiet) ++
["build", "--clean"] ++ (["--config-file", config_file] if config_file)`,
copy the current environment and set `docs_version_var` to `version` in the
copy, and run the child with `check=True`.  `environ` is the parent's
`os.environ` at call time and `childExit` the child's exit code; the
`output` parameter of the source only redirects the child's stdout/stderr
streams and has no effect on the embedded observables. -/
def override_build (config_file : Option String) (version : String)
    (quiet : Bool) (environ : Env) (childExit : Nat) : BuildCall :=
  let command :=
    ["update_docs"]
      ++ (if quiet then ["--quiet"] else [])
      ++ ["build", "--clean"]
      ++ (if truthy config_file then ["--config-file", config_file.getD ""] else [])
  let env := envSet environ docs_version_var version
  { command := command
    childEnv := env
    result :=
      if childExit = 0 then .ok ()
      else .error (.calledProcessError childExit)
    parentEnvAfter := environ }

/-- Embedding of the `__main__` bootstrap (src/mike_bin.py lines 72-75):
`os.environ["PATH"] = f"{os.path.join(os.getcwd())}:{os.environ['PATH']}"`.
`os.path.join` with a single argument is the identity, so the prepended
directory is the current working directory `cwd`.  A missing `PATH` makes
`os.environ['PATH']` raise `KeyError`, embedded as `none`. -/
def bootstrapPATH (cwd : String) (environ : Env) : Option Env :=
  match environ "PATH" with
  | none => none
  | some p => some (envSet environ "PATH" (cwd ++ ":" ++ p))

/-- The empty environment, used to instantiate witnesses. -/
def envNil : Env := fun _ => none

/-! ### Helper lemmas about the matcher and `rstrip` -/

theorem takeWhile_eq_self_of_all {p : Char → Bool} (t : List Char)
    (h : ∀ c ∈ t, p c = true) :
    t.takeWhile p = t :=
  List.takeWhile_eq_self_iff.mpr h

theorem takeWhile_append_all {p : Char → Bool} (w x : List Char)
    (h : ∀ c ∈ w, p c = true) :
    (w ++ x).takeWhile p = w ++ x.takeWhile p := by
  rw [List.takeWhile_append, takeWhile_eq_self_of_all w h, if_pos rfl]

theorem all_takeWhile_self {p : Char → Bool} (l : List Char) :
    (l.takeWhile p).all p = true :=
  List.all_eq_true.mpr fun _ hc => List.mem_takeWhile_imp hc

theorem rstrip_append (x t : List Char) (nl : Bool) (ht : t ≠ [])
    (hta : ∀ c ∈ t, isWS c = false) :
    rstrip ((x ++ t) ++ (if nl then ['\n'] else [])) = x ++ t := by
  have core : (x ++ t).reverse.dropWhile isWS = (x ++ t).reverse := by
    rw [List.reverse_append]
    cases htr : t.reverse with
    | nil => exact absurd (by simpa using htr) ht
    | cons a l =>
      have ha : a ∈ t := by
        rw [← List.mem_reverse, htr]; exact List.mem_cons_self _ _
      simp [List.dropWhile_cons, hta a ha]
  cases nl with
  | false =>
    have h0 : ((x ++ t) ++ (if false then ['\n'] else [])) = x ++ t := by simp
    rw [h0, rstrip, core, List.reverse_reverse]
  | true =>
    have h1 : ((x ++ t) ++ (if true then ['\n'] else [])) = (x ++ t) ++ ['\n'] := by simp
    rw [h1, rstrip, List.reverse_append]
    have : (['\n'] : List Char).reverse = ['\n'] := rfl
    rw [this]
    have hws : isWS '\n' = true := rfl
    simp only [List.cons_append, List.nil_append, List.dropWhile_cons, hws, if_true]
    rw [core, List.reverse_reverse]

theorem isPrefixOf_append_self (l x : List Char) : l.isPrefixOf (l ++ x) = true := by
  rw [List.isPrefixOf_iff_prefix]
  exact List.prefix_append l x

theorem matchFrom_eq_none (cs : List Char)
    (h : ∀ k, versionLiteral.isPrefixOf (cs.drop k) = false) :
    ∀ n, matchFrom n cs = none := by
  intro n
  induction n with
  | zero => rfl
  | succ k ih => simp [matchFrom, h (k + 1), ih]

theorem matchFrom_all_nonWS (cs g : List Char) :
    ∀ n, matchFrom n cs = some g → g.all nonWS = true := by
  intro n
  induction n with
  | zero => intro h; exact absurd h (by simp [matchFrom])
  | succ k ih =>
    intro h
    rw [matchFrom] at h
    split at h
    · cases h
      exact all_takeWhile_self _
    · exact ih h

theorem firstLineMatch_wellformed (w t : List Char) (hw : w ≠ [])
    (hwa : ∀ c ∈ w, isWS c = false) (hta : ∀ c ∈ t, isWS c = false) :
    firstLineMatch ((w ++ versionLiteral) ++ t) = some t := by
  have hlit : versionLiteral = ',' :: (' ' :: "version ".data) := rfl
  -- the maximal non-whitespace run at the start is `w` followed by the comma
  have hlen : (((w ++ versionLiteral) ++ t).takeWhile nonWS).length = w.length + 1 := by
    rw [List.append_assoc]
    rw [takeWhile_append_all w _ (fun c hc => by simp [nonWS, hwa c hc])]
    rw [hlit]
    have hc1 : nonWS ',' = true := by decide
    have hc2 : nonWS ' ' = false := by decide
    have h1 : (((',' :: (' ' :: "version ".data)) ++ t).takeWhile nonWS) = [','] := by
      simp [List.cons_append, List.takeWhile_cons, hc1, hc2]
    rw [h1]
    simp
  rw [firstLineMatch, hlen]
  -- the longest split (through the comma) fails: the literal starts with a comma
  -- but the remaining text starts with a space
  have hd1 : ((w ++ versionLiteral) ++ t).drop (w.length + 1)
      = ' ' :: ("version ".data ++ t) := by
    have : (w ++ versionLiteral) ++ t = (w ++ [',']) ++ ((' ' :: "version ".data) ++ t) := by
      rw [hlit]; simp
    rw [this]
    have hl : (w ++ [',']).length = w.length + 1 := by simp
    rw [← hl, List.drop_left]
    simp
  rw [matchFrom, hd1]
  have hfail : versionLiteral.isPrefixOf (' ' :: ("version ".data ++ t)) = false := by
    rw [Bool.eq_false_iff]
    intro hcontra
    rw [hlit, List.isPrefixOf_iff_prefix, List.cons_prefix_cons] at hcontra
    exact absurd hcontra.1 (by decide)
  rw [if_neg (by simp only [hfail]; exact Bool.false_ne_true)]
  -- the next split point places the whole literal right after `w`
  obtain ⟨a, w', rfl⟩ : ∃ a w', w = a :: w' := by
    cases w with
    | nil => exact absurd rfl hw
    | cons a w' => exact ⟨a, w', rfl⟩
  have hd2 : (((a :: w') ++ versionLiteral) ++ t).drop (a :: w').length
      = versionLiteral ++ t := by
    rw [List.append_assoc, List.drop_left]
  have hlen2 : (a :: w').length = w'.length + 1 := by simp
  rw [hlen2] at hd2
  simp only [List.length_cons]
  rw [matchFrom, hd2, if_pos (isPrefixOf_append_self _ _)]
  rw [List.drop_left, takeWhile_eq_self_of_all t (fun c hc => by simp [nonWS, hta c hc])]

theorem lit_no_occur_unbounded (cs : List Char)
    (h : ∀ k, k ≤ cs.length → versionLiteral.isPrefixOf (cs.drop k) = false) :
    ∀ k, versionLiteral.isPrefixOf (cs.drop k) = false := by
  intro k
  by_cases hk : k ≤ cs.length
  · exact h k hk
  · rw [List.drop_eq_nil_of_le (Nat.le_of_lt (Nat.lt_of_not_le hk))]
    decide

/-! ### The claims -/

/-- Claim C1: for a build request with config path `cfg.yml`, version `2.0.0`
and quiet = true, the constructed argument vector is exactly
`[update_docs, --quiet, build, --clean, --config-file, cfg.yml]`, and the
child environment is a copy of the current environment with the well-known
version variable set to `2.0.0` (every other variable unchanged). -/
theorem C1_build_argv_and_child_env (environ : Env) (code : Nat) :
    (override_build (some "cfg.yml") "2.0.0" true environ code).command
      = ["update_docs", "--quiet", "build", "--clean", "--config-file", "cfg.yml"]
    ∧ ∀ k, (override_build (some "cfg.yml") "2.0.0" true environ code).childEnv k
        = if k = docs_version_var then some "2.0.0" else environ k :=
  ⟨rfl, fun _ => rfl⟩

/-- Claim C6: with no config-file path supplied, the argument vector is
exactly `[update_docs] ++ (quiet flag if requested) ++ [build, --clean]` and
the `--config-file` flag does not occur in it. -/
theorem C6_no_config_flag_when_absent (version : String) (quiet : Bool)
    (environ : Env) (code : Nat) :
    (override_build none version quiet environ code).command
      = ["update_docs"] ++ (if quiet then ["--quiet"] else []) ++ ["build", "--clean"]
    ∧ (override_build none version quiet environ code).command.contains
        "--config-file" = false := by
  cases quiet <;> exact ⟨rfl, rfl⟩

/-- Claim C7: the version-carrying variable is set only in the copied
environment handed to the child; the parent environment after the call is
unchanged at every variable. -/
theorem C7_parent_env_never_mutated (config_file : Option String) (version : String)
    (quiet : Bool) (environ : Env) (code : Nat) :
    (override_build config_file version quiet environ code).parentEnvAfter = environ
    ∧ (override_build config_file version quiet environ code).childEnv
        = envSet environ docs_version_var version
    ∧ ∀ k, (override_build config_file version quiet environ code).parentEnvAfter k
        = environ k :=
  ⟨rfl, rfl, fun _ => rfl⟩

/-- Claim C10: a config-file argument supplied as the empty string is treated
exactly like an absent config path, because the inclusion test is Python
truthiness: the whole call is equal and the flag is omitted. -/
theorem C10_empty_config_treated_as_absent (version : String) (quiet : Bool)
    (environ : Env) (code : Nat) :
    override_build (some "") version quiet environ code
      = override_build none version quiet environ code
    ∧ (override_build (some "") version quiet environ code).command.contains
        "--config-file" = false := by
  constructor
  · rfl
  · cases quiet <;> rfl

/-- Claim C2: for version-query output of the form `<nonws>+`, then the
literal `, version `, then a non-whitespace token, possibly with a trailing
newline, the resolver returns exactly that token (newline trimmed). -/
theorem C2_version_token_extracted (stdout : String) (w t : List Char) (nl : Bool)
    (hw : w ≠ []) (hwa : ∀ c ∈ w, isWS c = false)
    (ht : t ≠ []) (hta : ∀ c ∈ t, isWS c = false)
    (hs : stdout.data = ((w ++ versionLiteral) ++ t) ++ (if nl then ['\n'] else [])) :
    override_version ⟨0, stdout⟩ = Except.ok (String.mk t) := by
  have h1 : rstrip stdout.data = (w ++ versionLiteral) ++ t := by
    rw [hs]; exact rstrip_append _ _ _ ht hta
  have h2 : firstLineMatch (rstrip stdout.data) = some t := by
    rw [h1]; exact firstLineMatch_wellformed w t hw hwa hta
  unfold override_version
  rw [if_neg (by simp)]
  show (match firstLineMatch (rstrip stdout.data) with
    | none => Except.error PyError.attributeError
    | some g => Except.ok (String.mk g)) = Except.ok (String.mk t)
  rw [h2]

/-- Claim C2 witness: the resolver extracts `9.9.9-rc1` from the output
`bar, version 9.9.9-rc1` with a trailing newline. -/
theorem C2_witness :
    override_version ⟨0, "bar, version 9.9.9-rc1\n"⟩ = Except.ok "9.9.9-rc1" :=
  C2_version_token_extracted "bar, version 9.9.9-rc1\n" "bar".data "9.9.9-rc1".data
    true (by decide) (by decide) (by decide) (by decide) (by decide)

/-- Claim C3 counterexample: on output with no `, version ` the source does
not raise the named unparsable-version-output error; it fails with the
unchecked dereference (`AttributeError`), a different error value. -/
theorem C3_counterexample :
    override_version ⟨0, "garbage"⟩ = Except.error PyError.attributeError
    ∧ decide (PyError.attributeError = PyError.unparsableVersionOutput) = false :=
  ⟨rfl, rfl⟩

/-- Claim C3 amended: for every zero-exit version query whose (rstripped)
output nowhere contains the literal `, version `, the resolver fails with the
unchecked null-match dereference (`AttributeError`), not a named error. -/
theorem C3_crash_on_unmatched_output (child : ChildResult)
    (h0 : child.exitCode = 0)
    (h : ∀ k, k ≤ (rstrip child.stdout.data).length →
        versionLiteral.isPrefixOf ((rstrip child.stdout.data).drop k) = false) :
    override_version child = Except.error PyError.attributeError := by
  have h2 : firstLineMatch (rstrip child.stdout.data) = none := by
    rw [firstLineMatch]
    exact matchFrom_eq_none _ (lit_no_occur_unbounded _ h) _
  unfold override_version
  rw [if_neg (by simp [h0])]
  show (match firstLineMatch (rstrip child.stdout.data) with
    | none => Except.error PyError.attributeError
    | some g => Except.ok (String.mk g)) = Except.error PyError.attributeError
  rw [h2]

/-- Claim C3 amended witness: the resolver dereference-crashes on the
unmatched output `nomatchhere`. -/
theorem C3_witness :
    override_version ⟨0, "nomatchhere"⟩ = Except.error PyError.attributeError :=
  C3_crash_on_unmatched_output ⟨0, "nomatchhere"⟩ rfl (by decide)

/-- Claim C4 counterexample: the capture group of the source pattern is
`(\S*)`, so the resolver can successfully return the empty token: it does on
the output `foo, version  x` (two spaces after the literal). -/
theorem C4_counterexample :
    override_version ⟨0, "foo, version  x"⟩ = Except.ok ""
    ∧ ("" : String).data.length = 0 :=
  ⟨rfl, rfl⟩

/-- Claim C4 amended: every token the resolver returns successfully consists
of non-whitespace characters only, but may be empty. -/
theorem C4_token_always_nonwhitespace (child : ChildResult) (t : String)
    (h : override_version child = Except.ok t) :
    t.data.all nonWS = true := by
  unfold override_version at h
  split at h
  · exact absurd h (by simp)
  · cases hm : firstLineMatch (rstrip child.stdout.data) with
    | none => rw [hm] at h; exact absurd h (by simp)
    | some g =>
      rw [hm] at h
      simp only [Except.ok.injEq] at h
      rw [← h]
      rw [firstLineMatch] at hm
      exact matchFrom_all_nonWS _ g _ hm

/-- Claim C4 amended witness: the token `1.2.3` extracted from
`foo, version 1.2.3` is all non-whitespace. -/
theorem C4_witness :
    override_version ⟨0, "foo, version 1.2.3"⟩ = Except.ok "1.2.3"
    ∧ ("1.2.3" : String).data.all nonWS = true :=
  ⟨rfl, C4_token_always_nonwhitespace ⟨0, "foo, version 1.2.3"⟩ "1.2.3" rfl⟩

/-- Claim C5 counterexample: a version query whose child exits with status
zero does not return normally when the output is unparsable, so "status zero
implies normal return" fails for the version operation. -/
theorem C5_counterexample :
    (ChildResult.mk 0 "no version markers").exitCode = 0
    ∧ isOk (override_version ⟨0, "no version markers"⟩) = false :=
  ⟨rfl, rfl⟩

/-- Claim C5 amended: for both operations a non-zero child exit raises the
fatal `CalledProcessError` with that code; a zero exit makes the build
dispatch return normally, while the version resolution on zero exit either
returns normally or fails with the pattern-match dereference. -/
theorem C5_exit_status_contract (config_file : Option String) (version : String)
    (quiet : Bool) (environ : Env) (code : Nat) (childNZ childZ : ChildResult)
    (hc : code ≠ 0) (hnz : childNZ.exitCode ≠ 0) (hz : childZ.exitCode = 0) :
    (override_build config_file version quiet environ code).result
        = Except.error (PyError.calledProcessError code)
    ∧ (override_build config_file version quiet environ 0).result = Except.ok ()
    ∧ override_version childNZ
        = Except.error (PyError.calledProcessError childNZ.exitCode)
    ∧ (isOk (override_version childZ) = true
        ∨ override_version childZ = Except.error PyError.attributeError) := by
  refine ⟨by simp [override_build, hc], rfl, ?_, ?_⟩
  · unfold override_version
    rw [if_pos hnz]
  · unfold override_version
    rw [if_neg (by simp [hz])]
    cases hm : firstLineMatch (rstrip childZ.stdout.data) with
    | none => exact Or.inr rfl
    | some g => exact Or.inl rfl

/-- Claim C5 witness: exit 2 fails the build, exit 0 succeeds it; exit 3
fails the version query, and exit 0 with parseable output resolves. -/
theorem C5_witness :
    (override_build none "1.0" false envNil 2).result
        = Except.error (PyError.calledProcessError 2)
    ∧ (override_build none "1.0" false envNil 0).result = Except.ok ()
    ∧ override_version ⟨3, "x"⟩ = Except.error (PyError.calledProcessError 3)
    ∧ (isOk (override_version ⟨0, "tool, version 4.5"⟩) = true
        ∨ override_version ⟨0, "tool, version 4.5"⟩
            = Except.error PyError.attributeError) :=
  C5_exit_status_contract none "1.0" false envNil 2 ⟨3, "x"⟩ ⟨0, "tool, version 4.5"⟩
    (by decide) (by decide) rfl

/-- Claim C8: the bootstrap prepends the current working directory to PATH,
not the directory containing the configured executable: launched from
`/home/user` with `update_docs` residing in `/opt/au/tools`, the child
lookup path starts with `/home/user`, and a missing PATH is a KeyError. -/
theorem C8_bootstrap_prepends_cwd :
    (bootstrapPATH "/home/user" (envSet envNil "PATH" "/usr/bin")).map
        (fun e => e "PATH") = some (some "/home/user:/usr/bin")
    ∧ bootstrapPATH "/home/user" envNil = none :=
  ⟨rfl, rfl⟩

/-- Claim C9: retrying a failing call with identical inputs is idempotent at
this layer: the failed call leaves the parent environment unchanged, the
retried call is equal as a whole (same argument vector, child environment and
failure), and the version hook's failure is likewise determined by the same
child behaviour. -/
theorem C9_failing_retry_identical (config_file : Option String) (version : String)
    (quiet : Bool) (environ : Env) (code : Nat) (child : ChildResult)
    (hc : code ≠ 0) (hch : child.exitCode ≠ 0) :
    (override_build config_file version quiet environ code).parentEnvAfter = environ
    ∧ override_build config_file version quiet
        ((override_build config_file version quiet environ code).parentEnvAfter) code
      = override_build config_file version quiet environ code
    ∧ isOk (override_build config_file version quiet environ code).result = false
    ∧ override_version child = Except.error (PyError.calledProcessError child.exitCode) := by
  refine ⟨rfl, rfl, by simp [override_build, hc, isOk], ?_⟩
  unfold override_version
  rw [if_pos hch]

/-- Claim C9 witness: the failing build with exit 1 retried on the resulting
environment is the identical call, and a version child with exit 1 fails. -/
theorem C9_witness :
    (override_build (some "mkdocs.yml") "3.1" false envNil 1).parentEnvAfter = envNil
    ∧ override_build (some "mkdocs.yml") "3.1" false
        ((override_build (some "mkdocs.yml") "3.1" false envNil 1).parentEnvAfter) 1
      = override_build (some "mkdocs.yml") "3.1" false envNil 1
    ∧ isOk (override_build (some "mkdocs.yml") "3.1" false envNil 1).result = false
    ∧ override_version ⟨1, ""⟩ = Except.error (PyError.calledProcessError 1) :=
  C9_failing_retry_identical (some "mkdocs.yml") "3.1" false envNil 1 ⟨1, ""⟩
    (by decide) (by decide)
